import Mathlib

/-
  Verification of the computational core of CrystalGrowthTracker.

  The repository ships the test module cgt/tests/test_velocities.py and the
  report writers cgt/io/htmlreport.py and cgt/io/writecsvreports.py, together
  with the GUI module cgt/gui/cgtvideocontrols.py.  The velocity model itself
  (cgt/model/velocitiescalculator.py) is not part of the shipped sources, so
  it is modelled here from the specification; the report writers and the GUI
  controls are embedded directly from their Python sources.
-/

/- ===================== Definitions ===================== -/

/-- Python float division as used by the velocity code: raises
ZeroDivisionError when the denominator is zero, so it is modelled as an
Option that is none exactly on a zero denominator. -/
noncomputable def pydiv (a b : ℝ) : Option ℝ :=
  if b = 0 then none else some (a / b)

/-- Modelled from the spec: ScreenDisplacement is an immutable value holding
(start_frame, end_frame, fps, pixel length).  Invariant (established by the
constructor below): start_frame is the earlier frame. -/
structure ScreenDisplacement where
  start_frame : ℤ
  end_frame : ℤ
  fps : ℝ
  length : ℝ

/-- Modelled from the spec: the constructor takes the two frame numbers in
the positional order (end_frame, start_frame); if they are given in reverse
order the two frame numbers are swapped, so the stored start is always the
earlier frame. -/
def screenDisplacement (end_frame start_frame : ℤ) (fps length : ℝ) :
    ScreenDisplacement :=
  if start_frame < end_frame then
    ⟨start_frame, end_frame, fps, length⟩
  else
    ⟨end_frame, start_frame, fps, length⟩

/-- Accessor for the stored start frame. -/
def ScreenDisplacement.get_start (d : ScreenDisplacement) : ℤ :=
  d.start_frame

/-- Accessor for the stored end frame. -/
def ScreenDisplacement.get_end (d : ScreenDisplacement) : ℤ :=
  d.end_frame

/-- Accessor for the stored pixel length. -/
def ScreenDisplacement.get_length (d : ScreenDisplacement) : ℝ :=
  d.length

/-- Modelled from the spec: elapsed_seconds = (end_frame - start_frame) / fps
and speed = pixel_length / elapsed_seconds, each division failing with a
ZeroDivisionError condition when its denominator is zero. -/
noncomputable def ScreenDisplacement.get_speed (d : ScreenDisplacement) :
    Option ℝ :=
  (pydiv ((d.end_frame - d.start_frame : ℤ) : ℝ) d.fps).bind
    (fun elapsed => pydiv d.length elapsed)

/-- The pure real value of the speed of a displacement, defined whenever the
two divisions succeed. -/
noncomputable def speedValue (d : ScreenDisplacement) : ℝ :=
  d.length / (((d.end_frame - d.start_frame : ℤ) : ℝ) / d.fps)

/-- Modelled from the spec: the marker type tag. -/
inductive MarkerTypes where
  | POINT : MarkerTypes
  | LINE : MarkerTypes
deriving DecidableEq

/-- A position on the image, in pixels. -/
structure ImagePoint where
  x : ℝ
  y : ℝ

/-- Euclidean pixel distance between two image positions. -/
noncomputable def euclideanDistance (p q : ImagePoint) : ℝ :=
  Real.sqrt ((p.x - q.x) ^ 2 + (p.y - q.y) ^ 2)

/-- Modelled from the spec: a line marker is identified by an ID and holds an
ordered mapping from frame number to the two endpoints of the segment at that
frame; the mapping is represented as the list of entries in frame order. -/
structure LineMarker where
  id : ℕ
  frames : List (ℤ × ImagePoint × ImagePoint)

/-- Modelled from the spec: a point marker is identified by an ID and holds
an ordered mapping from frame number to the position at that frame. -/
structure PointMarker where
  id : ℕ
  frames : List (ℤ × ImagePoint)

/-- The recorded frames of a line marker are strictly increasing. -/
def framesOrderedLine (m : LineMarker) : Prop :=
  List.Chain' (fun a b => a.1 < b.1) m.frames

/-- The recorded frames of a point marker are strictly increasing. -/
def framesOrderedPoint (m : PointMarker) : Prop :=
  List.Chain' (fun a b => a.1 < b.1) m.frames

/-- The list of consecutive pairs of a list. -/
def consecutivePairs {α : Type} (l : List α) : List (α × α) :=
  l.zip l.tail

/-- Modelled from the spec: for every consecutive pair of recorded frames of
a line marker, the pixel displacement is the average of the Euclidean
distance moved by the start endpoint and by the end endpoint, and one
ScreenDisplacement is built from the pair of frame numbers. -/
noncomputable def lineDisplacements (fps : ℝ) (m : LineMarker) :
    List ScreenDisplacement :=
  (consecutivePairs m.frames).map (fun pr =>
    screenDisplacement pr.1.1 pr.2.1 fps
      ((euclideanDistance pr.1.2.1 pr.2.2.1
        + euclideanDistance pr.1.2.2 pr.2.2.2) / 2))

/-- Modelled from the spec: for every consecutive pair of recorded frames of
a point marker, the pixel displacement is the Euclidean distance between the
two positions, and one ScreenDisplacement is built. -/
noncomputable def pointDisplacements (fps : ℝ) (m : PointMarker) :
    List ScreenDisplacement :=
  (consecutivePairs m.frames).map (fun pr =>
    screenDisplacement pr.1.1 pr.2.1 fps (euclideanDistance pr.1.2 pr.2.2))

/-- The displacement store entry of a line marker: its ID paired with its
displacements. -/
noncomputable def lineEntry (fps : ℝ) (m : LineMarker) :
    ℕ × List ScreenDisplacement :=
  (m.id, lineDisplacements fps m)

/-- The displacement store entry of a point marker: its ID paired with its
displacements. -/
noncomputable def pointEntry (fps : ℝ) (m : PointMarker) :
    ℕ × List ScreenDisplacement :=
  (m.id, pointDisplacements fps m)

/-- Modelled from the spec: the calculator holds the supplied markers, the
frame rate and the scale, together with the displacement store that
process_latest_data fills in (empty until that call). -/
structure VelocitiesCalculator where
  lines : List LineMarker
  points : List PointMarker
  fps : ℝ
  scale : ℝ
  line_displacements : List (ℕ × List ScreenDisplacement)
  point_displacements : List (ℕ × List ScreenDisplacement)

/-- Construction of a calculator from markers, frame rate and scale; the
displacement store starts empty. -/
def velocitiesCalculator (lines : List LineMarker) (points : List PointMarker)
    (fps scale : ℝ) : VelocitiesCalculator :=
  ⟨lines, points, fps, scale, [], []⟩

/-- Modelled from the spec: process_latest_data rebuilds the displacement
store from the current markers, one entry per marker holding one
ScreenDisplacement per consecutive pair of its recorded frames. -/
noncomputable def VelocitiesCalculator.process_latest_data
    (c : VelocitiesCalculator) : VelocitiesCalculator :=
  { c with
    line_displacements := c.lines.map (lineEntry c.fps)
    point_displacements := c.points.map (pointEntry c.fps) }

/-- Evaluate a fallible function on every element of a list, failing as soon
as one element fails (the behaviour of a Python loop in which an iteration
may raise). -/
def mapOrNone {α β : Type} (f : α → Option β) : List α → Option (List β)
  | [] => some []
  | a :: l => (f a).bind (fun b => (mapOrNone f l).map (fun bs => b :: bs))

/-- Modelled from the spec: an output record (marker ID, marker type, average
speed in physical units per second). -/
structure AverageSpeedRecord where
  ID : ℕ
  m_type : MarkerTypes
  speed : ℝ

/-- The average-speed record of one displacement-store entry: the mean of the
speeds of its displacements multiplied by the scale; fails if any speed
fails. -/
noncomputable def averageRecord (scale : ℝ) (t : MarkerTypes)
    (e : ℕ × List ScreenDisplacement) : Option AverageSpeedRecord :=
  (mapOrNone ScreenDisplacement.get_speed e.2).map (fun speeds =>
    ⟨e.1, t, speeds.sum / (speeds.length : ℝ) * scale⟩)

/-- The pure value of the average-speed record of an entry whose speeds all
succeed. -/
noncomputable def markerRecord (scale : ℝ) (t : MarkerTypes)
    (e : ℕ × List ScreenDisplacement) : AverageSpeedRecord :=
  ⟨e.1, t, (e.2.map speedValue).sum / ((e.2.length : ℕ) : ℝ) * scale⟩

/-- Modelled from the spec: get_average_speeds returns one record per marker
that contributed at least one displacement, line markers first and point
markers second; an arithmetic error in any speed propagates to the whole
call. -/
noncomputable def VelocitiesCalculator.get_average_speeds
    (c : VelocitiesCalculator) : Option (List AverageSpeedRecord) :=
  (mapOrNone (averageRecord c.scale MarkerTypes.LINE)
      (c.line_displacements.filter (fun e => !e.2.isEmpty))).bind
    (fun lrecs =>
      (mapOrNone (averageRecord c.scale MarkerTypes.POINT)
          (c.point_displacements.filter (fun e => !e.2.isEmpty))).map
        (fun precs => lrecs ++ precs))

/-- Modelled from the spec: number_markers returns the pair of the counts of
line markers and of point markers that contributed at least one
displacement. -/
def VelocitiesCalculator.number_markers (c : VelocitiesCalculator) : ℕ × ℕ :=
  ((c.line_displacements.filter (fun e => !e.2.isEmpty)).length,
   (c.point_displacements.filter (fun e => !e.2.isEmpty)).length)

/- Embedding of cgt/io/writecsvreports.py (save_csv_results). -/

/-- One cell of a csv row. -/
inductive CsvValue where
  | int : ℤ → CsvValue
  | str : String → CsvValue

/-- A pixel position with integer coordinates. -/
structure PixelPoint where
  x : ℤ
  y : ℤ

/-- A line as stored in the results: a note, the list of key frame numbers
and the segment (pair of endpoints) recorded at each frame. -/
structure ResultsLine where
  note : String
  frame_numbers : List ℤ
  segments : ℤ → PixelPoint × PixelPoint

/-- A region of interest as stored in the results. -/
structure CsvRegion where
  top : ℤ
  left : ℤ
  bottom : ℤ
  right : ℤ
  start_frame : ℤ
  end_frame : ℤ

/-- The results store of a project, restricted to the data save_csv_results
reads: regions, lines and the line-to-region association. -/
structure VideoAnalysisResultsStore where
  regions : List CsvRegion
  lines : List ResultsLine
  region_lines_association : ℕ → ℤ

/-- A project, restricted to the data save_csv_results reads. -/
structure CGTProject where
  results : Option VideoAnalysisResultsStore

/-- A Python runtime error. -/
inductive PyError where
  | nameError : String → PyError
deriving DecidableEq

/-- A csv file written by the report code: its name suffix, header and
rows. -/
structure CsvFile where
  title : String
  header : List String
  rows : List (List CsvValue)

/-- The row built for one region, as in the regions loop of
save_csv_results. -/
def regionRow (p : ℕ × CsvRegion) : List CsvValue :=
  [CsvValue.int p.1, CsvValue.int p.2.top, CsvValue.int p.2.left,
   CsvValue.int p.2.bottom, CsvValue.int p.2.right,
   CsvValue.int p.2.start_frame, CsvValue.int p.2.end_frame]

/-- The row appended to lines_array for one line, as in the lines loop of
save_csv_results. -/
def lineRow (assoc : ℕ → ℤ) (p : ℕ × ResultsLine) : List CsvValue :=
  [CsvValue.int p.1, CsvValue.str p.2.note, CsvValue.int (assoc p.1)]

/-- The inner loop of save_csv_results over the key frames of one line: each
iteration evaluates the row [key, self.start.x, self.start.y, self.end.x,
self.end.y, index], and the reference to the undefined name self raises
NameError at the first key, so the loop succeeds with no rows exactly when
the line has no key frames. -/
def segmentRowsLoop : List ℤ → Except PyError (List (List CsvValue))
  | [] => Except.ok []
  | _ :: _ => Except.error (PyError.nameError "self")

/-- The loop of save_csv_results over the enumerated lines: each iteration
appends one row to lines_array, then runs the inner key-frame loop, an
exception from which aborts the whole loop. -/
def linesLoop (assoc : ℕ → ℤ) :
    List (ℕ × ResultsLine) →
      Except PyError (List (List CsvValue) × List (List CsvValue))
  | [] => Except.ok ([], [])
  | p :: rest =>
      (segmentRowsLoop p.2.frame_numbers).bind (fun segRows =>
        (linesLoop assoc rest).map (fun arrays =>
          (lineRow assoc p :: arrays.1, segRows ++ arrays.2)))

/-- Embedded from cgt/io/writecsvreports.py: save_csv_results returns early
when the project has no results; otherwise it builds the regions array, runs
the lines loop (whose body references the undefined name self for every key
frame), and only then writes the regions, lines and line-segments csv
files.  The returned value lists the files written. -/
def save_csv_results (project : CGTProject) :
    Except PyError (List CsvFile) :=
  match project.results with
  | none => Except.ok []
  | some results =>
      let regions_array := results.regions.enum.map regionRow
      (linesLoop results.region_lines_association results.lines.enum).bind
        (fun arrays => Except.ok
          [⟨"_project_regions.csv",
            ["Region index", "Top", "Left", "Bottom", "Right",
             "Start frame", "End frame"], regions_array⟩,
           ⟨"_project_lines.csv", ["Index", "Note", "Region"], arrays.1⟩,
           ⟨"_line_segments.csv",
            ["Frame", "Start x", "Start y", "End x", "End y", "Line"],
            arrays.2⟩])

/- Embedding of cgt/gui/cgtvideocontrols.py. -/

/-- A Qt spin box: a range and a value kept inside the range. -/
structure SpinBox where
  minimum : ℤ
  maximum : ℤ
  value : ℤ

/-- Qt setValue: the new value is clamped into the range. -/
def SpinBox.setValue (s : SpinBox) (v : ℤ) : SpinBox :=
  { s with value := max s.minimum (min s.maximum v) }

/-- Qt setRange: the bounds are replaced (the upper bound never below the
lower) and the value is clamped into the new range. -/
def SpinBox.setRange (s : SpinBox) (lo hi : ℤ) : SpinBox :=
  ⟨lo, max lo hi, max lo (min (max lo hi) s.value)⟩

/-- A Qt slider: a range, a value kept inside the range and a tick
interval. -/
structure Slider where
  minimum : ℤ
  maximum : ℤ
  value : ℤ
  tickInterval : ℤ

/-- Qt setRange for the slider. -/
def Slider.setRange (s : Slider) (lo hi : ℤ) : Slider :=
  ⟨lo, max lo hi, max lo (min (max lo hi) s.value), s.tickInterval⟩

/-- Qt setTickInterval for the slider. -/
def Slider.setTickInterval (s : Slider) (t : ℤ) : Slider :=
  { s with tickInterval := t }

/-- The state of the CGTVideoControls widget that the embedded methods
touch: the frame slider and the goto spin box. -/
structure CGTVideoControls where
  frameSlider : Slider
  gotoSpinBox : SpinBox

/-- Embedded from cgtvideocontrols.py: set_range(maximum) sets the slider
range to 0 to maximum-1, the spin box range to 1 to maximum, and the tick
interval to int(maximum/10). -/
def set_range (c : CGTVideoControls) (maximum : ℤ) : CGTVideoControls :=
  ⟨(c.frameSlider.setRange 0 (maximum - 1)).setTickInterval (maximum / 10),
   c.gotoSpinBox.setRange 1 maximum⟩

/-- Embedded from cgtvideocontrols.py: set_frame_currently_displayed sets
the goto spin box to the internal frame number plus one. -/
def set_frame_currently_displayed (c : CGTVideoControls)
    (frame_number : ℤ) : CGTVideoControls :=
  ⟨c.frameSlider, c.gotoSpinBox.setValue (frame_number + 1)⟩

/-- Embedded from cgtvideocontrols.py: go_to_frame emits frame_changed with
the spin box value minus one; the emitted value is returned. -/
def go_to_frame (c : CGTVideoControls) : ℤ :=
  c.gotoSpinBox.value - 1

/- ===================== Theorems ===================== -/

lemma screenDisplacement_start (a b : ℤ) (fps length : ℝ) :
    (screenDisplacement a b fps length).start_frame = min a b := by
  unfold screenDisplacement
  split
  · dsimp only
    omega
  · dsimp only
    omega

lemma screenDisplacement_end (a b : ℤ) (fps length : ℝ) :
    (screenDisplacement a b fps length).end_frame = max a b := by
  unfold screenDisplacement
  split
  · dsimp only
    omega
  · dsimp only
    omega

lemma screenDisplacement_fps (a b : ℤ) (fps length : ℝ) :
    (screenDisplacement a b fps length).fps = fps := by
  unfold screenDisplacement
  split
  · rfl
  · rfl

lemma screenDisplacement_length (a b : ℤ) (fps length : ℝ) :
    (screenDisplacement a b fps length).length = length := by
  unfold screenDisplacement
  split
  · rfl
  · rfl

lemma get_speed_eq_some (d : ScreenDisplacement)
    (hlt : d.start_frame < d.end_frame) (hf : d.fps ≠ 0) :
    d.get_speed = some (speedValue d) := by
  have hsub : ((d.end_frame - d.start_frame : ℤ) : ℝ) ≠ 0 := by
    exact_mod_cast sub_ne_zero.mpr (ne_of_gt hlt)
  unfold ScreenDisplacement.get_speed pydiv
  rw [if_neg hf]
  simp only [Option.some_bind]
  rw [if_neg (div_ne_zero hsub hf)]
  rfl

/-- Claim C1: for a ScreenDisplacement constructed with start frame s and end
frame e (so s is the earlier frame), frame rate fps and pixel length L,
get_speed returns L / ((e - s) / fps); in particular the displacement
constructed as ScreenDisplacement(200, 100, 10.0, 100) has speed 10.0. -/
theorem screenDisplacement_speed_C1 (s e : ℤ) (fps L : ℝ)
    (hse : s < e) (hfps : fps ≠ 0) :
    (screenDisplacement e s fps L).get_speed
        = some (L / (((e - s : ℤ) : ℝ) / fps)) ∧
    (screenDisplacement 200 100 (10 : ℝ) (100 : ℝ)).get_speed
        = some (10 : ℝ) := by
  constructor
  · have h1 := get_speed_eq_some (screenDisplacement e s fps L)
      (by rw [screenDisplacement_start, screenDisplacement_end]; omega)
      (by rw [screenDisplacement_fps]; exact hfps)
    rw [h1]
    unfold speedValue
    rw [screenDisplacement_start, screenDisplacement_end,
        screenDisplacement_fps, screenDisplacement_length]
    congr 1
    have : max e s - min e s = e - s := by omega
    rw [this]
  · have h1 := get_speed_eq_some (screenDisplacement 200 100 (10 : ℝ) (100 : ℝ))
      (by rw [screenDisplacement_start, screenDisplacement_end]; omega)
      (by rw [screenDisplacement_fps]; norm_num)
    rw [h1]
    unfold speedValue
    rw [screenDisplacement_start, screenDisplacement_end,
        screenDisplacement_fps, screenDisplacement_length]
    norm_num

theorem screenDisplacement_speed_C1_witness :
    (screenDisplacement 200 100 (10 : ℝ) (100 : ℝ)).get_speed
        = some ((100 : ℝ) / (((200 - 100 : ℤ) : ℝ) / 10)) :=
  (screenDisplacement_speed_C1 100 200 (10 : ℝ) (100 : ℝ)
    (by norm_num) (by norm_num)).1

/-- Claim C2: constructing a ScreenDisplacement with the two frame numbers in
either positional order yields the same behaviour: get_start returns the
smaller frame, get_end the larger frame, and get_speed is identical for the
two argument orders. -/
theorem screenDisplacement_order_C2 (s e : ℤ) (fps L : ℝ) (hne : s ≠ e) :
    (screenDisplacement e s fps L).get_start = min s e ∧
    (screenDisplacement e s fps L).get_end = max s e ∧
    (screenDisplacement s e fps L).get_start = min s e ∧
    (screenDisplacement s e fps L).get_end = max s e ∧
    (screenDisplacement e s fps L).get_speed
        = (screenDisplacement s e fps L).get_speed := by
  refine ⟨?_, ?_, ?_, ?_, ?_⟩
  · rw [ScreenDisplacement.get_start, screenDisplacement_start]
    omega
  · rw [ScreenDisplacement.get_end, screenDisplacement_end]
    omega
  · rw [ScreenDisplacement.get_start, screenDisplacement_start]
  · rw [ScreenDisplacement.get_end, screenDisplacement_end]
  · have hes : screenDisplacement e s fps L = screenDisplacement s e fps L := by
      unfold screenDisplacement
      rcases lt_or_gt_of_ne hne with h | h
      · rw [if_pos h, if_neg (show ¬ e < s by omega)]
      · rw [if_neg (show ¬ s < e by omega), if_pos (show e < s by omega)]
    rw [hes]

theorem screenDisplacement_order_C2_witness :
    (screenDisplacement 200 100 (10 : ℝ) (100 : ℝ)).get_start = min 100 200 ∧
    (screenDisplacement 200 100 (10 : ℝ) (100 : ℝ)).get_end = max 100 200 ∧
    (screenDisplacement 100 200 (10 : ℝ) (100 : ℝ)).get_start = min 100 200 ∧
    (screenDisplacement 100 200 (10 : ℝ) (100 : ℝ)).get_end = max 100 200 ∧
    (screenDisplacement 200 100 (10 : ℝ) (100 : ℝ)).get_speed
        = (screenDisplacement 100 200 (10 : ℝ) (100 : ℝ)).get_speed :=
  screenDisplacement_order_C2 100 200 (10 : ℝ) (100 : ℝ) (by norm_num)

/-- Claim C6: get_speed fails with a propagated division error, and in
particular does not return the value 0, exactly when the stored end frame
equals the stored start frame (given a nonzero frame rate, as guaranteed by
the caller contract fps > 0). -/
theorem zero_duration_speed_C6 (d : ScreenDisplacement) (hfps : d.fps ≠ 0) :
    d.get_speed = none ↔ d.end_frame = d.start_frame := by
  constructor
  · intro h
    by_contra hne
    have hsub : ((d.end_frame - d.start_frame : ℤ) : ℝ) ≠ 0 := by
      exact_mod_cast sub_ne_zero.mpr hne
    unfold ScreenDisplacement.get_speed pydiv at h
    rw [if_neg hfps] at h
    simp only [Option.some_bind] at h
    rw [if_neg (div_ne_zero hsub hfps)] at h
    exact Option.some_ne_none _ h
  · intro h
    unfold ScreenDisplacement.get_speed pydiv
    rw [if_neg hfps]
    simp only [Option.some_bind]
    rw [h]
    simp

theorem zero_duration_speed_C6_witness :
    (ScreenDisplacement.mk 5 5 (10 : ℝ) (3 : ℝ)).get_speed = none :=
  (zero_duration_speed_C6 (ScreenDisplacement.mk 5 5 (10 : ℝ) (3 : ℝ))
    (by norm_num)).mpr rfl

lemma consecutivePairs_chain {α : Type} {R : α → α → Prop} :
    ∀ (l : List α), l.Chain' R → ∀ pr ∈ consecutivePairs l, R pr.1 pr.2
  | [] => by
      intro _ pr hpr
      simp [consecutivePairs] at hpr
  | [_] => by
      intro _ pr hpr
      simp [consecutivePairs] at hpr
  | a :: b :: t => by
      intro h pr hpr
      rw [List.chain'_cons] at h
      have hz : consecutivePairs (a :: b :: t)
          = (a, b) :: consecutivePairs (b :: t) := rfl
      rw [hz, List.mem_cons] at hpr
      rcases hpr with hpr | hpr
      · rw [hpr]
        exact h.1
      · exact consecutivePairs_chain (b :: t) h.2 pr hpr

lemma consecutivePairs_length {α : Type} (l : List α) :
    (consecutivePairs l).length = l.length - 1 := by
  unfold consecutivePairs
  rw [List.length_zip, List.length_tail]
  omega

lemma consecutivePairs_getElem? {α : Type} :
    ∀ (l : List α) (i : ℕ) (a b : α), l[i]? = some a → l[i + 1]? = some b →
      (consecutivePairs l)[i]? = some (a, b)
  | [], i, a, b => by
      intro h _
      simp at h
  | [c], i, a, b => by
      intro _ h2
      rcases i with _ | j
      · simp at h2
      · simp at h2
  | c :: d :: t, i, a, b => by
      intro h1 h2
      have hz : consecutivePairs (c :: d :: t)
          = (c, d) :: consecutivePairs (d :: t) := rfl
      rcases i with _ | j
      · simp at h1 h2
        rw [hz]
        simp [h1, h2]
      · rw [hz]
        have h1t : (d :: t)[j]? = some a := by simpa using h1
        have h2t : (d :: t)[j + 1]? = some b := by simpa using h2
        have := consecutivePairs_getElem? (d :: t) j a b h1t h2t
        simpa using this

lemma mapOrNone_eq_map {α β : Type} {f : α → Option β} {g : α → β} :
    ∀ (l : List α), (∀ a ∈ l, f a = some (g a)) →
      mapOrNone f l = some (l.map g)
  | [] => by
      intro _
      rfl
  | a :: l => by
      intro h
      have ha : f a = some (g a) := h a (List.mem_cons_self a l)
      have hl : mapOrNone f l = some (l.map g) :=
        mapOrNone_eq_map l (fun x hx => h x (List.mem_cons_of_mem a hx))
      unfold mapOrNone
      rw [ha, Option.some_bind, hl, Option.map_some']
      rfl

lemma mapOrNone_mem {α β : Type} {f : α → Option β} :
    ∀ (l : List α) (bs : List β), mapOrNone f l = some bs →
      ∀ b ∈ bs, ∃ a ∈ l, f a = some b
  | [], bs => by
      intro h b hb
      unfold mapOrNone at h
      rw [← Option.some_inj.mp h] at hb
      simp at hb
  | a :: l, bs => by
      intro h b hb
      unfold mapOrNone at h
      rcases ha : f a with _ | b0
      · rw [ha, Option.none_bind] at h
        exact absurd h (by simp)
      · rw [ha, Option.some_bind] at h
        rcases hl : mapOrNone f l with _ | bs0
        · rw [hl, Option.map_none'] at h
          exact absurd h (by simp)
        · rw [hl, Option.map_some'] at h
          rw [← Option.some_inj.mp h] at hb
          rcases List.mem_cons.mp hb with hb | hb
          · exact ⟨a, List.mem_cons_self a l, by rw [ha, hb]⟩
          · rcases mapOrNone_mem l bs0 hl b hb with ⟨x, hx, hfx⟩
            exact ⟨x, List.mem_cons_of_mem a hx, hfx⟩

/-- Claim C3: process_latest_data builds, for every marker, exactly one
ScreenDisplacement per consecutive pair of recorded frames taken in order:
the displacement count is one less than the frame count, the i-th
displacement is built from frames i and i+1, its pixel length being the
average of the distances moved by the two endpoints for a line marker and
the distance between the two positions for a point marker; the processed
calculator stores exactly these displacement lists. -/
theorem process_builds_displacements_C3 (fps : ℝ) (c : VelocitiesCalculator) :
    (∀ m : LineMarker,
        (lineDisplacements fps m).length = m.frames.length - 1) ∧
    (∀ m : PointMarker,
        (pointDisplacements fps m).length = m.frames.length - 1) ∧
    (∀ (m : LineMarker) (i : ℕ) (fr1 fr2 : ℤ × ImagePoint × ImagePoint),
        m.frames[i]? = some fr1 → m.frames[i + 1]? = some fr2 →
        (lineDisplacements fps m)[i]? = some (screenDisplacement fr1.1 fr2.1
          fps ((euclideanDistance fr1.2.1 fr2.2.1
            + euclideanDistance fr1.2.2 fr2.2.2) / 2))) ∧
    (∀ (m : PointMarker) (i : ℕ) (fr1 fr2 : ℤ × ImagePoint),
        m.frames[i]? = some fr1 → m.frames[i + 1]? = some fr2 →
        (pointDisplacements fps m)[i]? = some (screenDisplacement fr1.1 fr2.1
          fps (euclideanDistance fr1.2 fr2.2))) ∧
    (c.process_latest_data).line_displacements
        = c.lines.map (lineEntry c.fps) ∧
    (c.process_latest_data).point_displacements
        = c.points.map (pointEntry c.fps) := by
  refine ⟨?_, ?_, ?_, ?_, rfl, rfl⟩
  · intro m
    unfold lineDisplacements
    rw [List.length_map, consecutivePairs_length]
  · intro m
    unfold pointDisplacements
    rw [List.length_map, consecutivePairs_length]
  · intro m i fr1 fr2 h1 h2
    unfold lineDisplacements
    rw [List.getElem?_map, consecutivePairs_getElem? m.frames i fr1 fr2 h1 h2]
    rfl
  · intro m i fr1 fr2 h1 h2
    unfold pointDisplacements
    rw [List.getElem?_map, consecutivePairs_getElem? m.frames i fr1 fr2 h1 h2]
    rfl

theorem process_builds_displacements_C3_witness :
    (lineDisplacements (2 : ℝ)
        ⟨3, [(0, ⟨0, 0⟩, ⟨1, 0⟩), (5, ⟨3, 4⟩, ⟨1, 2⟩)]⟩).length
      = ([(0, (⟨0, 0⟩ : ImagePoint), (⟨1, 0⟩ : ImagePoint)),
          (5, ⟨3, 4⟩, ⟨1, 2⟩)] : List (ℤ × ImagePoint × ImagePoint)).length
        - 1 ∧
    (lineDisplacements (2 : ℝ)
        ⟨3, [(0, ⟨0, 0⟩, ⟨1, 0⟩), (5, ⟨3, 4⟩, ⟨1, 2⟩)]⟩)[0]?
      = some (screenDisplacement 0 5 2
          ((euclideanDistance ⟨0, 0⟩ ⟨3, 4⟩
            + euclideanDistance ⟨1, 0⟩ ⟨1, 2⟩) / 2)) :=
  ⟨(process_builds_displacements_C3 2 (velocitiesCalculator [] [] 2 1)).1
      ⟨3, [(0, ⟨0, 0⟩, ⟨1, 0⟩), (5, ⟨3, 4⟩, ⟨1, 2⟩)]⟩,
   (process_builds_displacements_C3 2 (velocitiesCalculator [] [] 2 1)).2.2.1
      ⟨3, [(0, ⟨0, 0⟩, ⟨1, 0⟩), (5, ⟨3, 4⟩, ⟨1, 2⟩)]⟩ 0 _ _ rfl rfl⟩

lemma screenDisplacement_speed_build (a b : ℤ) (fps len : ℝ)
    (hne : a ≠ b) (hfps : fps ≠ 0) :
    (screenDisplacement a b fps len).get_speed
        = some (speedValue (screenDisplacement a b fps len)) :=
  get_speed_eq_some _
    (by rw [screenDisplacement_start, screenDisplacement_end]; omega)
    (by rw [screenDisplacement_fps]; exact hfps)

lemma lineDisplacements_speed (fps : ℝ) (m : LineMarker) (hfps : fps ≠ 0)
    (hm : framesOrderedLine m) :
    ∀ d ∈ lineDisplacements fps m, d.get_speed = some (speedValue d) := by
  intro d hd
  unfold lineDisplacements at hd
  rcases List.mem_map.mp hd with ⟨pr, hpr, rfl⟩
  have hlt := consecutivePairs_chain m.frames hm pr hpr
  exact screenDisplacement_speed_build _ _ _ _ (by omega) hfps

lemma pointDisplacements_speed (fps : ℝ) (m : PointMarker) (hfps : fps ≠ 0)
    (hm : framesOrderedPoint m) :
    ∀ d ∈ pointDisplacements fps m, d.get_speed = some (speedValue d) := by
  intro d hd
  unfold pointDisplacements at hd
  rcases List.mem_map.mp hd with ⟨pr, hpr, rfl⟩
  have hlt := consecutivePairs_chain m.frames hm pr hpr
  exact screenDisplacement_speed_build _ _ _ _ (by omega) hfps

lemma averageRecord_eq (scale : ℝ) (t : MarkerTypes)
    (e : ℕ × List ScreenDisplacement)
    (h : ∀ d ∈ e.2, d.get_speed = some (speedValue d)) :
    averageRecord scale t e = some (markerRecord scale t e) := by
  unfold averageRecord markerRecord
  rw [mapOrNone_eq_map e.2 h, Option.map_some']
  simp [List.length_map]

lemma process_average_speeds (c : VelocitiesCalculator) (hfps : c.fps ≠ 0)
    (hl : ∀ m ∈ c.lines, framesOrderedLine m)
    (hp : ∀ m ∈ c.points, framesOrderedPoint m) :
    (c.process_latest_data).get_average_speeds =
      some ((((c.lines.map (lineEntry c.fps)).filter
          (fun e => !e.2.isEmpty)).map
            (markerRecord c.scale MarkerTypes.LINE))
        ++ (((c.points.map (pointEntry c.fps)).filter
          (fun e => !e.2.isEmpty)).map
            (markerRecord c.scale MarkerTypes.POINT))) := by
  have hlrec : ∀ e ∈ (c.lines.map (lineEntry c.fps)).filter
      (fun e => !e.2.isEmpty),
      averageRecord c.scale MarkerTypes.LINE e
        = some (markerRecord c.scale MarkerTypes.LINE e) := by
    intro e he
    rcases List.mem_map.mp (List.mem_of_mem_filter he) with ⟨m, hm, rfl⟩
    exact averageRecord_eq _ _ _
      (lineDisplacements_speed c.fps m hfps (hl m hm))
  have hprec : ∀ e ∈ (c.points.map (pointEntry c.fps)).filter
      (fun e => !e.2.isEmpty),
      averageRecord c.scale MarkerTypes.POINT e
        = some (markerRecord c.scale MarkerTypes.POINT e) := by
    intro e he
    rcases List.mem_map.mp (List.mem_of_mem_filter he) with ⟨m, hm, rfl⟩
    exact averageRecord_eq _ _ _
      (pointDisplacements_speed c.fps m hfps (hp m hm))
  have h1 := mapOrNone_eq_map _ hlrec
  have h2 := mapOrNone_eq_map _ hprec
  unfold VelocitiesCalculator.get_average_speeds
  simp only [VelocitiesCalculator.process_latest_data]
  rw [h1, Option.some_bind, h2, Option.map_some']

lemma euclideanDistance_345 :
    euclideanDistance ⟨0, 0⟩ ⟨30, 40⟩ = 50 := by
  unfold euclideanDistance
  rw [show ((0 : ℝ) - 30) ^ 2 + ((0 : ℝ) - 40) ^ 2 = 50 ^ 2 by norm_num]
  exact Real.sqrt_sq (by norm_num)

/-- Claim C4: after process_latest_data, get_average_speeds returns exactly
one record per marker with at least one displacement, whose speed is the
arithmetic mean of the displacement speeds multiplied by the scale; for the
single point marker recorded at frames 0 at (0,0) and 10 at (30,40), with
fps 10 and scale 1, the single returned record has speed 50.0. -/
theorem average_speeds_C4 (c : VelocitiesCalculator) (hfps : c.fps ≠ 0)
    (hl : ∀ m ∈ c.lines, framesOrderedLine m)
    (hp : ∀ m ∈ c.points, framesOrderedPoint m) :
    ((c.process_latest_data).get_average_speeds =
      some ((((c.lines.map (lineEntry c.fps)).filter
          (fun e => !e.2.isEmpty)).map
            (markerRecord c.scale MarkerTypes.LINE))
        ++ (((c.points.map (pointEntry c.fps)).filter
          (fun e => !e.2.isEmpty)).map
            (markerRecord c.scale MarkerTypes.POINT)))) ∧
    (((velocitiesCalculator []
        [⟨7, [(0, ⟨0, 0⟩), (10, ⟨30, 40⟩)]⟩]
        10 1).process_latest_data).get_average_speeds
      = some [⟨7, MarkerTypes.POINT, 50⟩]) := by
  constructor
  · exact process_average_speeds c hfps hl hp
  · have hc := process_average_speeds
      (velocitiesCalculator [] [⟨7, [(0, ⟨0, 0⟩), (10, ⟨30, 40⟩)]⟩] 10 1)
      (by norm_num [velocitiesCalculator])
      (by intro m hm; simp [velocitiesCalculator] at hm)
      (by
        intro m hm
        simp [velocitiesCalculator] at hm
        subst hm
        unfold framesOrderedPoint
        exact List.chain'_cons.mpr ⟨by norm_num, List.chain'_singleton _⟩)
    rw [hc]
    simp only [velocitiesCalculator]
    simp only [List.map_nil, List.filter_nil, List.map_cons, pointEntry,
      pointDisplacements, consecutivePairs, List.tail_cons, List.zip_cons_cons,
      List.zip_nil_right, List.map_nil, List.map_cons]
    rw [show screenDisplacement 0 10 10 (euclideanDistance ⟨0, 0⟩ ⟨30, 40⟩)
        = ⟨0, 10, 10, euclideanDistance ⟨0, 0⟩ ⟨30, 40⟩⟩ by
      unfold screenDisplacement
      rw [if_neg (by norm_num)]]
    simp only [List.filter_cons, List.isEmpty_cons, Bool.not_false,
      List.filter_nil, List.map_cons, List.map_nil, List.nil_append]
    rw [euclideanDistance_345]
    norm_num [markerRecord, speedValue]

theorem average_speeds_C4_witness :
    ((velocitiesCalculator []
        [⟨7, [(0, ⟨0, 0⟩), (10, ⟨30, 40⟩)]⟩]
        10 1).process_latest_data).get_average_speeds
      = some [⟨7, MarkerTypes.POINT, 50⟩] :=
  (average_speeds_C4
    (velocitiesCalculator [] [⟨7, [(0, ⟨0, 0⟩), (10, ⟨30, 40⟩)]⟩] 10 1)
    (by norm_num [velocitiesCalculator])
    (by intro m hm; simp [velocitiesCalculator] at hm)
    (by
      intro m hm
      simp [velocitiesCalculator] at hm
      subst hm
      unfold framesOrderedPoint
      exact List.chain'_cons.mpr ⟨by norm_num, List.chain'_singleton _⟩)).2

lemma averageRecord_inv (scale : ℝ) (t : MarkerTypes)
    (e : ℕ × List ScreenDisplacement) (r : AverageSpeedRecord)
    (h : averageRecord scale t e = some r) : r.ID = e.1 ∧ r.m_type = t := by
  unfold averageRecord at h
  rcases Option.map_eq_some'.mp h with ⟨speeds, _, hr⟩
  rw [← hr]
  exact ⟨rfl, rfl⟩

/-- Claim C5: a marker with fewer than two recorded frames gets zero
displacements from process_latest_data, and every record that
get_average_speeds does return belongs to a marker with at least one
displacement, so such a marker is silently excluded from the output rather
than reported with a zero speed or treated as an error. -/
theorem short_markers_excluded_C5 (fps : ℝ) :
    (∀ m : LineMarker, m.frames.length < 2 → lineDisplacements fps m = []) ∧
    (∀ m : PointMarker, m.frames.length < 2 → pointDisplacements fps m = []) ∧
    (∀ (c : VelocitiesCalculator) (recs : List AverageSpeedRecord),
        (c.process_latest_data).get_average_speeds = some recs →
        ∀ r ∈ recs,
          (r.m_type = MarkerTypes.LINE →
            ∃ m ∈ c.lines, m.id = r.ID ∧ lineDisplacements c.fps m ≠ []) ∧
          (r.m_type = MarkerTypes.POINT →
            ∃ m ∈ c.points, m.id = r.ID ∧ pointDisplacements c.fps m ≠ [])) := by
  refine ⟨?_, ?_, ?_⟩
  · intro m hm
    unfold lineDisplacements
    rcases hf : m.frames with _ | ⟨a, _ | ⟨b, t⟩⟩
    · simp [consecutivePairs]
    · simp [consecutivePairs]
    · rw [hf] at hm
      simp at hm
      omega
  · intro m hm
    unfold pointDisplacements
    rcases hf : m.frames with _ | ⟨a, _ | ⟨b, t⟩⟩
    · simp [consecutivePairs]
    · simp [consecutivePairs]
    · rw [hf] at hm
      simp at hm
      omega
  · intro c recs h r hr
    unfold VelocitiesCalculator.get_average_speeds at h
    simp only [VelocitiesCalculator.process_latest_data] at h
    rcases hA : mapOrNone (averageRecord c.scale MarkerTypes.LINE)
        ((c.lines.map (lineEntry c.fps)).filter (fun e => !e.2.isEmpty))
      with _ | lrecs
    · rw [hA, Option.none_bind] at h
      exact absurd h (by simp)
    rcases hB : mapOrNone (averageRecord c.scale MarkerTypes.POINT)
        ((c.points.map (pointEntry c.fps)).filter (fun e => !e.2.isEmpty))
      with _ | precs
    · rw [hA, Option.some_bind, hB, Option.map_none'] at h
      exact absurd h (by simp)
    rw [hA, Option.some_bind, hB, Option.map_some'] at h
    rw [← Option.some_inj.mp h, List.mem_append] at hr
    rcases hr with hrl | hrp
    · rcases mapOrNone_mem _ _ hA r hrl with ⟨e, he, hav⟩
      have hid := averageRecord_inv _ _ _ _ hav
      constructor
      · intro _
        rcases List.mem_map.mp (List.mem_of_mem_filter he) with ⟨m, hm, hme⟩
        have hne : lineDisplacements c.fps m ≠ [] := by
          have hfe := List.of_mem_filter he
          rw [← hme] at hfe
          simpa [lineEntry] using hfe
        refine ⟨m, hm, ?_, hne⟩
        rw [hid.1, ← hme]
        rfl
      · intro hpt
        rw [hid.2] at hpt
        exact absurd hpt (by simp)
    · rcases mapOrNone_mem _ _ hB r hrp with ⟨e, he, hav⟩
      have hid := averageRecord_inv _ _ _ _ hav
      constructor
      · intro hpt
        rw [hid.2] at hpt
        exact absurd hpt (by simp)
      · intro _
        rcases List.mem_map.mp (List.mem_of_mem_filter he) with ⟨m, hm, hme⟩
        have hne : pointDisplacements c.fps m ≠ [] := by
          have hfe := List.of_mem_filter he
          rw [← hme] at hfe
          simpa [pointEntry] using hfe
        refine ⟨m, hm, ?_, hne⟩
        rw [hid.1, ← hme]
        rfl

theorem short_markers_excluded_C5_witness :
    pointDisplacements (10 : ℝ) ⟨4, [(0, ⟨1, 2⟩)]⟩ = [] :=
  (short_markers_excluded_C5 10).2.1 ⟨4, [(0, ⟨1, 2⟩)]⟩ (by simp)

lemma filter_map_entries_line (c : VelocitiesCalculator) :
    (c.lines.map (lineEntry c.fps)).filter (fun e => !e.2.isEmpty)
      = (c.lines.filter
          (fun m => !(lineDisplacements c.fps m).isEmpty)).map
            (lineEntry c.fps) := by
  rw [List.filter_map]
  congr 1

lemma filter_map_entries_point (c : VelocitiesCalculator) :
    (c.points.map (pointEntry c.fps)).filter (fun e => !e.2.isEmpty)
      = (c.points.filter
          (fun m => !(pointDisplacements c.fps m).isEmpty)).map
            (pointEntry c.fps) := by
  rw [List.filter_map]
  congr 1

/-- Claim C7: number_markers returns the pair (line count, point count) of
the markers that contributed at least one displacement, and these counts
equal the numbers of distinct marker IDs present in the get_average_speeds
output, partitioned by marker type (marker IDs are distinct per type, as the
data model prescribes). -/
theorem number_markers_C7 (c : VelocitiesCalculator) (hfps : c.fps ≠ 0)
    (hl : ∀ m ∈ c.lines, framesOrderedLine m)
    (hp : ∀ m ∈ c.points, framesOrderedPoint m)
    (hnl : (c.lines.map LineMarker.id).Nodup)
    (hnp : (c.points.map PointMarker.id).Nodup) :
    (c.process_latest_data).number_markers =
      ((c.lines.filter
          (fun m => !(lineDisplacements c.fps m).isEmpty)).length,
       (c.points.filter
          (fun m => !(pointDisplacements c.fps m).isEmpty)).length) ∧
    ∃ recs, (c.process_latest_data).get_average_speeds = some recs ∧
      ((recs.filter (fun r => decide (r.m_type = MarkerTypes.LINE))).map
          AverageSpeedRecord.ID).dedup.length
        = (c.process_latest_data).number_markers.1 ∧
      ((recs.filter (fun r => decide (r.m_type = MarkerTypes.POINT))).map
          AverageSpeedRecord.ID).dedup.length
        = (c.process_latest_data).number_markers.2 := by
  have h1 : (c.process_latest_data).number_markers
      = (((c.lines.map (lineEntry c.fps)).filter
            (fun e => !e.2.isEmpty)).length,
         ((c.points.map (pointEntry c.fps)).filter
            (fun e => !e.2.isEmpty)).length) := rfl
  have hfirst : (c.process_latest_data).number_markers =
      ((c.lines.filter
          (fun m => !(lineDisplacements c.fps m).isEmpty)).length,
       (c.points.filter
          (fun m => !(pointDisplacements c.fps m).isEmpty)).length) := by
    rw [h1, filter_map_entries_line, filter_map_entries_point,
        List.length_map, List.length_map]
  refine ⟨hfirst, _, process_average_speeds c hfps hl hp, ?_, ?_⟩
  · rw [List.filter_append]
    have hA : (((c.lines.map (lineEntry c.fps)).filter
        (fun e => !e.2.isEmpty)).map
          (markerRecord c.scale MarkerTypes.LINE)).filter
            (fun r => decide (r.m_type = MarkerTypes.LINE))
        = ((c.lines.map (lineEntry c.fps)).filter
            (fun e => !e.2.isEmpty)).map
              (markerRecord c.scale MarkerTypes.LINE) := by
      rw [List.filter_eq_self]
      intro r hr
      rcases List.mem_map.mp hr with ⟨e, _, rfl⟩
      simp [markerRecord]
    have hB : (((c.points.map (pointEntry c.fps)).filter
        (fun e => !e.2.isEmpty)).map
          (markerRecord c.scale MarkerTypes.POINT)).filter
            (fun r => decide (r.m_type = MarkerTypes.LINE))
        = [] := by
      rw [List.filter_eq_nil_iff]
      intro r hr
      rcases List.mem_map.mp hr with ⟨e, _, rfl⟩
      simp [markerRecord]
    rw [hA, hB, List.append_nil, List.map_map]
    rw [show (AverageSpeedRecord.ID ∘ markerRecord c.scale MarkerTypes.LINE)
        = Prod.fst from rfl]
    rw [filter_map_entries_line, List.map_map]
    rw [show (Prod.fst ∘ lineEntry c.fps) = LineMarker.id from rfl]
    have hsub : ((c.lines.filter
        (fun m => !(lineDisplacements c.fps m).isEmpty)).map
          LineMarker.id).Sublist (c.lines.map LineMarker.id) :=
      (List.filter_sublist _).map _
    rw [List.dedup_eq_self.mpr (List.Nodup.sublist hsub hnl)]
    rw [List.length_map, hfirst]
  · rw [List.filter_append]
    have hA : (((c.lines.map (lineEntry c.fps)).filter
        (fun e => !e.2.isEmpty)).map
          (markerRecord c.scale MarkerTypes.LINE)).filter
            (fun r => decide (r.m_type = MarkerTypes.POINT))
        = [] := by
      rw [List.filter_eq_nil_iff]
      intro r hr
      rcases List.mem_map.mp hr with ⟨e, _, rfl⟩
      simp [markerRecord]
    have hB : (((c.points.map (pointEntry c.fps)).filter
        (fun e => !e.2.isEmpty)).map
          (markerRecord c.scale MarkerTypes.POINT)).filter
            (fun r => decide (r.m_type = MarkerTypes.POINT))
        = ((c.points.map (pointEntry c.fps)).filter
            (fun e => !e.2.isEmpty)).map
              (markerRecord c.scale MarkerTypes.POINT) := by
      rw [List.filter_eq_self]
      intro r hr
      rcases List.mem_map.mp hr with ⟨e, _, rfl⟩
      simp [markerRecord]
    rw [hA, hB, List.nil_append, List.map_map]
    rw [show (AverageSpeedRecord.ID ∘ markerRecord c.scale MarkerTypes.POINT)
        = Prod.fst from rfl]
    rw [filter_map_entries_point, List.map_map]
    rw [show (Prod.fst ∘ pointEntry c.fps) = PointMarker.id from rfl]
    have hsub : ((c.points.filter
        (fun m => !(pointDisplacements c.fps m).isEmpty)).map
          PointMarker.id).Sublist (c.points.map PointMarker.id) :=
      (List.filter_sublist _).map _
    rw [List.dedup_eq_self.mpr (List.Nodup.sublist hsub hnp)]
    rw [List.length_map, hfirst]

theorem number_markers_C7_witness :
    ((velocitiesCalculator
        [⟨1, [(0, ⟨0, 0⟩, ⟨1, 0⟩), (2, ⟨0, 1⟩, ⟨1, 1⟩)]⟩]
        [⟨4, [(0, ⟨0, 0⟩)]⟩] 10 1).process_latest_data).number_markers =
      (((velocitiesCalculator
          [⟨1, [(0, ⟨0, 0⟩, ⟨1, 0⟩), (2, ⟨0, 1⟩, ⟨1, 1⟩)]⟩]
          [⟨4, [(0, ⟨0, 0⟩)]⟩] 10 1).lines.filter
            (fun m => !(lineDisplacements (velocitiesCalculator
              [⟨1, [(0, ⟨0, 0⟩, ⟨1, 0⟩), (2, ⟨0, 1⟩, ⟨1, 1⟩)]⟩]
              [⟨4, [(0, ⟨0, 0⟩)]⟩] 10 1).fps m).isEmpty)).length,
       ((velocitiesCalculator
          [⟨1, [(0, ⟨0, 0⟩, ⟨1, 0⟩), (2, ⟨0, 1⟩, ⟨1, 1⟩)]⟩]
          [⟨4, [(0, ⟨0, 0⟩)]⟩] 10 1).points.filter
            (fun m => !(pointDisplacements (velocitiesCalculator
              [⟨1, [(0, ⟨0, 0⟩, ⟨1, 0⟩), (2, ⟨0, 1⟩, ⟨1, 1⟩)]⟩]
              [⟨4, [(0, ⟨0, 0⟩)]⟩] 10 1).fps m).isEmpty)).length) :=
  (number_markers_C7
    (velocitiesCalculator
      [⟨1, [(0, ⟨0, 0⟩, ⟨1, 0⟩), (2, ⟨0, 1⟩, ⟨1, 1⟩)]⟩]
      [⟨4, [(0, ⟨0, 0⟩)]⟩] 10 1)
    (by norm_num [velocitiesCalculator])
    (by
      intro m hm
      simp [velocitiesCalculator] at hm
      subst hm
      unfold framesOrderedLine
      exact List.chain'_cons.mpr ⟨by norm_num, List.chain'_singleton _⟩)
    (by
      intro m hm
      simp [velocitiesCalculator] at hm
      subst hm
      unfold framesOrderedPoint
      exact List.chain'_singleton _)
    (by simp [velocitiesCalculator])
    (by simp [velocitiesCalculator])).1

/-- Claim C8: process_latest_data is idempotent: applying it twice yields the
same calculator state as applying it once, and hence the same
get_average_speeds output. -/
theorem process_idempotent_C8 (c : VelocitiesCalculator) :
    (c.process_latest_data).process_latest_data = c.process_latest_data ∧
    ((c.process_latest_data).process_latest_data).get_average_speeds
      = (c.process_latest_data).get_average_speeds := by
  have h : (c.process_latest_data).process_latest_data
      = c.process_latest_data := rfl
  exact ⟨h, by rw [h]⟩

lemma linesLoop_ok (assoc : ℕ → ℤ) :
    ∀ l : List (ℕ × ResultsLine), (∀ p ∈ l, p.2.frame_numbers = []) →
      linesLoop assoc l = Except.ok (l.map (lineRow assoc), [])
  | [] => by
      intro _
      rfl
  | p :: rest => by
      intro h
      have hp := h p (List.mem_cons_self p rest)
      have hr := linesLoop_ok assoc rest
        (fun q hq => h q (List.mem_cons_of_mem p hq))
      unfold linesLoop
      rw [hp]
      rw [show segmentRowsLoop [] = Except.ok [] from rfl]
      rw [hr]
      rfl

lemma linesLoop_error (assoc : ℕ → ℤ) :
    ∀ l : List (ℕ × ResultsLine), (∃ p ∈ l, p.2.frame_numbers ≠ []) →
      linesLoop assoc l = Except.error (PyError.nameError "self")
  | [] => by
      intro h
      rcases h with ⟨p, hp, _⟩
      simp at hp
  | p :: rest => by
      intro h
      unfold linesLoop
      rcases hfn : p.2.frame_numbers with _ | ⟨k, ks⟩
      · have hrest : ∃ q ∈ rest, q.2.frame_numbers ≠ [] := by
          rcases h with ⟨q, hq, hne⟩
          rcases List.mem_cons.mp hq with hq1 | hq2
          · rw [hq1] at hne
            exact absurd hfn hne
          · exact ⟨q, hq2, hne⟩
        rw [show segmentRowsLoop [] = Except.ok [] from rfl]
        rw [linesLoop_error assoc rest hrest]
        rfl
      · rw [show segmentRowsLoop (k :: ks)
            = Except.error (PyError.nameError "self") from rfl]
        rfl

/-- Claim C9: for a project whose results hold at least one line with at
least one recorded key frame, save_csv_results raises NameError (the loop
body references the undefined name self) and no line-segments csv file is
produced; when no line has a recorded key frame the function completes and
writes the regions, lines and line-segments csv files. -/
theorem save_csv_nameError_C9 (project : CGTProject)
    (results : VideoAnalysisResultsStore)
    (hres : project.results = some results) :
    ((∃ line ∈ results.lines, line.frame_numbers ≠ []) →
        save_csv_results project
          = Except.error (PyError.nameError "self")) ∧
    ((∀ line ∈ results.lines, line.frame_numbers = []) →
        save_csv_results project = Except.ok
          [⟨"_project_regions.csv",
            ["Region index", "Top", "Left", "Bottom", "Right",
             "Start frame", "End frame"],
            results.regions.enum.map regionRow⟩,
           ⟨"_project_lines.csv", ["Index", "Note", "Region"],
            results.lines.enum.map
              (lineRow results.region_lines_association)⟩,
           ⟨"_line_segments.csv",
            ["Frame", "Start x", "Start y", "End x", "End y", "Line"],
            []⟩]) := by
  have hsave : save_csv_results project
      = (linesLoop results.region_lines_association
            results.lines.enum).bind (fun arrays => Except.ok
          [⟨"_project_regions.csv",
            ["Region index", "Top", "Left", "Bottom", "Right",
             "Start frame", "End frame"],
            results.regions.enum.map regionRow⟩,
           ⟨"_project_lines.csv", ["Index", "Note", "Region"], arrays.1⟩,
           ⟨"_line_segments.csv",
            ["Frame", "Start x", "Start y", "End x", "End y", "Line"],
            arrays.2⟩]) := by
    unfold save_csv_results
    rw [hres]
  constructor
  · intro h
    have henum : ∃ p ∈ results.lines.enum, p.2.frame_numbers ≠ [] := by
      rcases h with ⟨line, hline, hne⟩
      have hmem : line ∈ results.lines.enum.map Prod.snd := by
        rw [List.enum_map_snd]
        exact hline
      rcases List.mem_map.mp hmem with ⟨p, hp, hps⟩
      refine ⟨p, hp, ?_⟩
      rw [hps]
      exact hne
    rw [hsave, linesLoop_error _ _ henum]
    rfl
  · intro h
    have henum : ∀ p ∈ results.lines.enum, p.2.frame_numbers = [] := by
      intro p hp
      have hmem : p.2 ∈ results.lines := by
        rw [← List.enum_map_snd results.lines]
        exact List.mem_map_of_mem _ hp
      exact h p.2 hmem
    rw [hsave, linesLoop_ok _ _ henum]
    rfl

theorem save_csv_nameError_C9_witness :
    save_csv_results
        ⟨some ⟨[], [⟨"growth front", [3], fun _ => (⟨0, 0⟩, ⟨1, 1⟩)⟩],
          fun _ => 0⟩⟩
      = Except.error (PyError.nameError "self") :=
  (save_csv_nameError_C9
    ⟨some ⟨[], [⟨"growth front", [3], fun _ => (⟨0, 0⟩, ⟨1, 1⟩)⟩],
      fun _ => 0⟩⟩
    ⟨[], [⟨"growth front", [3], fun _ => (⟨0, 0⟩, ⟨1, 1⟩)⟩], fun _ => 0⟩
    rfl).1
    ⟨⟨"growth front", [3], fun _ => (⟨0, 0⟩, ⟨1, 1⟩)⟩,
     List.mem_cons_self _ _, by simp⟩

/-- Claim C10: the displayed and internal frame numbers differ by exactly
one: after set_range(maximum) the slider covers 0 to maximum-1 and the spin
box 1 to maximum, set_frame_currently_displayed(n) puts n+1 in the spin box
for every internal frame index n in range, and go_to_frame then emits
frame_changed with value n. -/
theorem video_controls_C10 (c0 : CGTVideoControls) (m n : ℤ)
    (h0 : 0 ≤ n) (h1 : n < m) :
    (set_range c0 m).frameSlider.minimum = 0 ∧
    (set_range c0 m).frameSlider.maximum = m - 1 ∧
    (set_range c0 m).gotoSpinBox.minimum = 1 ∧
    (set_range c0 m).gotoSpinBox.maximum = m ∧
    (set_frame_currently_displayed (set_range c0 m) n).gotoSpinBox.value
        = n + 1 ∧
    go_to_frame (set_frame_currently_displayed (set_range c0 m) n) = n := by
  refine ⟨rfl, ?_, rfl, ?_, ?_, ?_⟩ <;>
    (dsimp only [set_range, set_frame_currently_displayed, go_to_frame,
      Slider.setRange, Slider.setTickInterval, SpinBox.setRange,
      SpinBox.setValue]
     omega)

theorem video_controls_C10_witness :
    (set_range ⟨⟨0, 0, 0, 0⟩, ⟨0, 0, 0⟩⟩ 10).frameSlider.minimum = 0 ∧
    (set_range ⟨⟨0, 0, 0, 0⟩, ⟨0, 0, 0⟩⟩ 10).frameSlider.maximum = 10 - 1 ∧
    (set_range ⟨⟨0, 0, 0, 0⟩, ⟨0, 0, 0⟩⟩ 10).gotoSpinBox.minimum = 1 ∧
    (set_range ⟨⟨0, 0, 0, 0⟩, ⟨0, 0, 0⟩⟩ 10).gotoSpinBox.maximum = 10 ∧
    (set_frame_currently_displayed
        (set_range ⟨⟨0, 0, 0, 0⟩, ⟨0, 0, 0⟩⟩ 10) 3).gotoSpinBox.value
      = 3 + 1 ∧
    go_to_frame (set_frame_currently_displayed
        (set_range ⟨⟨0, 0, 0, 0⟩, ⟨0, 0, 0⟩⟩ 10) 3) = 3 :=
  video_controls_C10 ⟨⟨0, 0, 0, 0⟩, ⟨0, 0, 0⟩⟩ 10 3 (by norm_num)
    (by norm_num)
